import Mathlib

/-!
Verification of the krelez stream-metadata synchronization engine.

The definitions below are shallow embeddings of the TypeScript sources:

* `src/chipend/src/components/chiptuneplayer.tsx` (pull/polling player)
* `src/chipend/src/components/vaporplayer.tsx` (push/SSE player)
* the Astro status-proxy `GET` routes (chip and vapor variants)

Pure state transitions of the players (metadata processing, playback
state, history ledger) become Lean functions on explicit state records;
the fallible proxy handler returns `Except` (an uncaught JS exception is
`Except.error`).  JS string truthiness is modelled on `Option String`
(`none` = field absent, `some ""` = falsy empty string).
-/

/-- A raw metadata payload as delivered by `/metadata` or an SSE message:
a JSON object whose `artist` and `title` fields may each be absent. -/
structure RawPayload where
  artist : Option String
  title : Option String
deriving DecidableEq

/-- JS truthiness of a possibly-absent string field: `undefined`/missing
and the empty string are falsy, every other string is truthy
(the `data.artist && data.title` guard in both players). -/
def truthyStr : Option String → Bool
  | none => false
  | some s => !(s == "")

/-- The computed track identity used by both players:
`` `${data.artist}-${data.title}` `` (chiptuneplayer.tsx line 136,
vaporplayer.tsx line 138) — a hyphen-delimited concatenation. -/
def trackId (p : RawPayload) : String :=
  p.artist.getD "" ++ "-" ++ p.title.getD ""

/-- The metadata-relevant component state shared by both players:
`currentTrack` (React state), `lastTrackRef.current` (the last seen
computed track id) and `trackHistory` (React state; timestamps omitted,
entries keep insertion order, newest first). -/
structure EngineState where
  currentTrack : Option RawPayload
  lastTrack : Option String
  trackHistory : List RawPayload
deriving DecidableEq

/-- Initial component state: no current track, no last id, empty history. -/
def initialEngineState : EngineState :=
  { currentTrack := none, lastTrack := none, trackHistory := [] }

/-- One metadata payload being processed, mirroring the body of
`fetchAndUpdateTrack` (chiptuneplayer.tsx lines 134-151) and of the SSE
`onmessage` handler (vaporplayer.tsx lines 136-153):
if both fields are truthy and the computed id differs from the last seen
one, the previous current track (when present) is prepended to the
history which is truncated to 3 entries, and the id and current track
are updated; otherwise the state is left untouched. -/
def processPayload (st : EngineState) (data : RawPayload) : EngineState :=
  if truthyStr data.artist && truthyStr data.title then
    if st.lastTrack ≠ some (trackId data) then
      { currentTrack := some data
        lastTrack := some (trackId data)
        trackHistory :=
          match st.currentTrack with
          | some prev => (prev :: st.trackHistory).take 3
          | none => st.trackHistory }
    else st
  else st

/-- Processing a sequence of payloads in arrival order. -/
def runPayloads (st : EngineState) (ps : List RawPayload) : EngineState :=
  ps.foldl processPayload st

/-- Number of payloads in a sequence that the detector classifies as a
track change (the condition guarding the state update in
`fetchAndUpdateTrack` / `onmessage`). -/
def countChanges (st : EngineState) : List RawPayload → Nat
  | [] => 0
  | p :: ps =>
    (if (truthyStr p.artist && truthyStr p.title) = true ∧
        st.lastTrack ≠ some (trackId p) then 1 else 0)
      + countChanges (processPayload st p) ps

/-- The spec's claimed identity scheme (§3 of the spec): NUL-delimited
concatenation.  Stated only to be compared with the source's `trackId`. -/
def specTrackId (p : RawPayload) : String :=
  p.artist.getD "" ++ "\x00" ++ p.title.getD ""

-- Helper lemmas about the engine step

lemma processPayload_invalid (st : EngineState) (p : RawPayload)
    (hp : (truthyStr p.artist && truthyStr p.title) = false) :
    processPayload st p = st := by
  simp [processPayload, hp]

lemma processPayload_repeat (st : EngineState) (p : RawPayload)
    (hid : st.lastTrack = some (trackId p)) :
    processPayload st p = st := by
  unfold processPayload
  rcases hb : truthyStr p.artist && truthyStr p.title with _ | _
  · simp
  · simp [hid]

lemma processPayload_changed (st : EngineState) (p : RawPayload)
    (hv : (truthyStr p.artist && truthyStr p.title) = true)
    (hid : st.lastTrack ≠ some (trackId p)) :
    processPayload st p =
      { currentTrack := some p
        lastTrack := some (trackId p)
        trackHistory :=
          match st.currentTrack with
          | some prev => (prev :: st.trackHistory).take 3
          | none => st.trackHistory } := by
  simp [processPayload, hv, hid]

lemma countChanges_repeat (p : RawPayload) :
    ∀ (k : Nat) (st : EngineState), st.lastTrack = some (trackId p) →
      countChanges st (List.replicate k p) = 0 := by
  intro k
  induction k with
  | zero => intro st _; simp [countChanges]
  | succ n ih =>
    intro st hid
    rw [List.replicate_succ]
    rw [countChanges]
    rw [processPayload_repeat st p hid]
    rw [ih st hid]
    simp [hid]

/-- Claim C5, counterexample: the identity computed by the players for
artist `A`, title `B` is the hyphen-delimited `A-B`, which differs from
the NUL-delimited `artist ++ \x7b NUL \x7d ++ title` the claim states. -/
theorem C5_counterexample :
    trackId ⟨some "A", some "B"⟩ = "A-B" ∧
    trackId ⟨some "A", some "B"⟩ ≠ specTrackId ⟨some "A", some "B"⟩ := by
  decide

/-- Claim C5 (amended): the computed identity used for change detection
is `artist ++ "-" ++ title` (hyphen-delimited concatenation), and a
valid payload leaves the engine state unchanged exactly when the last
seen trackId equals the payload's computed trackId. -/
theorem C5_amended_trackId_hyphen (st : EngineState) (p : RawPayload)
    (hv : (truthyStr p.artist && truthyStr p.title) = true) :
    trackId p = p.artist.getD "" ++ "-" ++ p.title.getD "" ∧
    (processPayload st p = st ↔ st.lastTrack = some (trackId p)) := by
  refine ⟨rfl, ?_, ?_⟩
  · intro h
    by_contra hid
    have h2 := processPayload_changed st p hv hid
    rw [h] at h2
    exact hid (congrArg EngineState.lastTrack h2)
  · intro hid
    exact processPayload_repeat st p hid

/-- Claim C5, witness: the amended statement evaluated at a concrete
state and payload. -/
theorem C5_witness :
    trackId ⟨some "A", some "B"⟩ =
      Option.getD (some "A") "" ++ "-" ++ Option.getD (some "B") "" ∧
    (processPayload initialEngineState ⟨some "A", some "B"⟩ = initialEngineState ↔
      initialEngineState.lastTrack = some (trackId ⟨some "A", some "B"⟩)) :=
  C5_amended_trackId_hyphen initialEngineState ⟨some "A", some "B"⟩ (by decide)

/-- Claim C7: feeding the detector the same valid payload N ≥ 1 times in
a row from a state that has not yet seen its trackId yields a detected
change exactly once — on the first occurrence — and no change for the
remaining N−1 repeats. -/
theorem C7_idempotent_detection (st : EngineState) (p : RawPayload) (N : Nat)
    (hv : (truthyStr p.artist && truthyStr p.title) = true)
    (hnew : st.lastTrack ≠ some (trackId p))
    (hN : 1 ≤ N) :
    processPayload st p ≠ st ∧ countChanges st (List.replicate N p) = 1 := by
  obtain ⟨k, rfl⟩ : ∃ k, N = k + 1 := ⟨N - 1, (Nat.succ_pred_eq_of_pos hN).symm⟩
  constructor
  · intro h
    have h2 := processPayload_changed st p hv hnew
    rw [h] at h2
    exact hnew (congrArg EngineState.lastTrack h2)
  · rw [List.replicate_succ, countChanges]
    rw [processPayload_changed st p hv hnew]
    rw [countChanges_repeat p k _ rfl]
    simp [hv, hnew]

/-- Claim C7, witness: three identical repeats of a concrete payload
from the initial state yield exactly one detected change. -/
theorem C7_witness :
    processPayload initialEngineState ⟨some "A", some "X"⟩ ≠ initialEngineState ∧
    countChanges initialEngineState
      (List.replicate 3 ⟨some "A", some "X"⟩) = 1 :=
  C7_idempotent_detection initialEngineState ⟨some "A", some "X"⟩ 3
    (by decide) (by decide) (by decide)

/-- Claim C10: a payload whose artist or title field is missing or the
empty string (either one suffices) is ignored entirely: currentTrack,
the last seen trackId and the history are all unchanged, and the step
returns normally (no error is surfaced). -/
theorem C10_partial_payload_ignored (st : EngineState) (p : RawPayload)
    (hp : truthyStr p.artist = false ∨ truthyStr p.title = false) :
    processPayload st p = st := by
  apply processPayload_invalid
  rcases hp with h | h <;> simp [h]

/-- Claim C10, witness: a payload with an artist but an empty title is
ignored from the initial state. -/
theorem C10_witness :
    processPayload initialEngineState ⟨some "OnlyArtist", some ""⟩ =
      initialEngineState :=
  C10_partial_payload_ignored initialEngineState ⟨some "OnlyArtist", some ""⟩
    (by decide)

/-- Closed form of the engine after a run of valid, adjacently-distinct
payloads from the initial state: the current track is the last payload
and the history is the reversed list of superseded payloads truncated
to 3 (the \x7bprev :: history\x7d.take 3 update of both players). -/
lemma runPayloads_closed (ps : List RawPayload) :
    ∀ (c : RawPayload) (rest : List RawPayload),
      (∀ p ∈ ps, (truthyStr p.artist && truthyStr p.title) = true) →
      List.Chain' (fun p q => trackId p ≠ trackId q) ps →
      ps.reverse = c :: rest →
      runPayloads initialEngineState ps =
        { currentTrack := some c
          lastTrack := some (trackId c)
          trackHistory := rest.take 3 } := by
  induction ps using List.reverseRecOn with
  | nil => intro c rest _ _ hrev; simp at hrev
  | append_singleton l a ih =>
    intro c rest hval hchain hrev
    rw [List.reverse_append] at hrev
    simp only [List.reverse_cons, List.reverse_nil, List.nil_append,
      List.cons_append, List.singleton_append] at hrev
    injection hrev with h1 h2
    subst h1
    subst h2
    have hva : (truthyStr a.artist && truthyStr a.title) = true :=
      hval a (by simp)
    have hfold : runPayloads initialEngineState (l ++ [a])
        = processPayload (runPayloads initialEngineState l) a := by
      simp [runPayloads, List.foldl_append]
    rcases hl : l.reverse with _ | ⟨c', rest'⟩
    · have hlnil : l = [] := by
        rw [← List.reverse_reverse l, hl]; rfl
      subst hlnil
      rw [hfold]
      rw [show runPayloads initialEngineState [] = initialEngineState from rfl]
      rw [processPayload_changed initialEngineState a hva
        (by simp [initialEngineState])]
      simp [runPayloads, initialEngineState]
    · have hlne : l ≠ [] := by
        intro h; subst h; simp at hl
      obtain ⟨hchl, _, hrel⟩ := List.chain'_append.mp hchain
      have hlast : l.getLast? = some c' := by
        rw [← List.head?_reverse, hl]
        rfl
      have hne : trackId c' ≠ trackId a := by
        exact hrel c' (by rw [hlast]; rfl) a (by rfl)
      have hrun := ih c' rest'
        (fun p hp => hval p (List.mem_append_left _ hp)) hchl hl
      rw [hfold, hrun]
      rw [processPayload_changed _ a hva
        (by simp only [ne_eq, Option.some.injEq]; exact hne)]
      simp [List.take_take, hl]

/-- Claim C8: after any sequence of M ≥ 4 valid track payloads whose
adjacent computed trackIds differ (M distinct track transitions), the
history contains exactly the 3 most recently superseded tracks in
most-recent-first order, and the just-started track (the current one)
is never itself in the history: the history is exactly
`(ps.reverse.drop 1).take 3` while `currentTrack` is the head of
`ps.reverse`. -/
theorem C8_history_bound (ps : List RawPayload)
    (hval : ∀ p ∈ ps, (truthyStr p.artist && truthyStr p.title) = true)
    (hchain : List.Chain' (fun p q => trackId p ≠ trackId q) ps)
    (hlen : 4 ≤ ps.length) :
    (runPayloads initialEngineState ps).trackHistory =
      (ps.reverse.drop 1).take 3 ∧
    (runPayloads initialEngineState ps).trackHistory.length = 3 ∧
    (runPayloads initialEngineState ps).currentTrack = ps.reverse.head? := by
  rcases hrev : ps.reverse with _ | ⟨c, rest⟩
  · exfalso
    rw [List.reverse_eq_nil_iff] at hrev
    subst hrev; simp at hlen
  have hcl := runPayloads_closed ps c rest hval hchain hrev
  rw [hcl]
  have hlenr : rest.length + 1 = ps.length := by
    have h := congrArg List.length hrev
    simp only [List.length_reverse, List.length_cons] at h
    omega
  refine ⟨by simp, ?_, by simp⟩
  simp only [List.length_take]
  omega

/-- Claim C8, witness: four concrete distinct tracks leave exactly the
first three in the history, most recent first. -/
theorem C8_witness :
    (runPayloads initialEngineState
        [⟨some "A", some "1"⟩, ⟨some "B", some "2"⟩,
         ⟨some "C", some "3"⟩, ⟨some "D", some "4"⟩]).trackHistory =
      (([⟨some "A", some "1"⟩, ⟨some "B", some "2"⟩,
         ⟨some "C", some "3"⟩, ⟨some "D", some "4"⟩] :
          List RawPayload).reverse.drop 1).take 3 ∧
    (runPayloads initialEngineState
        [⟨some "A", some "1"⟩, ⟨some "B", some "2"⟩,
         ⟨some "C", some "3"⟩, ⟨some "D", some "4"⟩]).trackHistory.length = 3 ∧
    (runPayloads initialEngineState
        [⟨some "A", some "1"⟩, ⟨some "B", some "2"⟩,
         ⟨some "C", some "3"⟩, ⟨some "D", some "4"⟩]).currentTrack =
      ([⟨some "A", some "1"⟩, ⟨some "B", some "2"⟩,
        ⟨some "C", some "3"⟩, ⟨some "D", some "4"⟩] :
          List RawPayload).reverse.head? :=
  C8_history_bound _ (by decide)
    (by simp only [List.chain'_cons, List.chain'_singleton]; decide)
    (by decide)

/-- The playback-relevant component state of either player: `isPlaying`,
`playbackTime` (elapsed seconds), plus the metadata state that the
playback transitions must not disturb. -/
structure PState where
  isPlaying : Bool
  playbackTime : Nat
  currentTrack : Option RawPayload
  trackHistory : List RawPayload
deriving DecidableEq

/-- Playback events of either player: the play/pause button
(`togglePlayPause`), one firing of the 1-second interval (`tick`, which
only exists while `isPlaying`), and the audio element's `onEnded` and
`onError` callbacks. -/
inductive PEvent where
  | togglePlayPause
  | tick
  | onEnded
  | onError
deriving DecidableEq

/-- One playback event applied to the state, mirroring
`togglePlayPause` (chiptuneplayer.tsx lines 187-198: flips `isPlaying`,
touches nothing else), the timer effect (lines 91-107: increments
`playbackTime` once per second while playing), and the audio element's
`onEnded`/`onError` handlers (lines 272-286: stop playing and reset
`playbackTime` to 0, leaving `currentTrack` and history alone). -/
def playbackStep (s : PState) : PEvent → PState
  | PEvent.togglePlayPause => { s with isPlaying := !s.isPlaying }
  | PEvent.tick =>
      if s.isPlaying then { s with playbackTime := s.playbackTime + 1 } else s
  | PEvent.onEnded => { s with isPlaying := false, playbackTime := 0 }
  | PEvent.onError => { s with isPlaying := false, playbackTime := 0 }

/-- Claim C9: pausing from Playing leaves `playbackTime` (and
`currentTrack` and history) untouched; a subsequent play resumes
incrementing from the preserved value; and the elapsed time after any
event equals the old value except that a tick while playing increments
it and only `onEnded`/`onError` reset it to 0 (no event other than the
two terminal ones ever zeroes a non-zero elapsed time). -/
theorem C9_pause_preserves_elapsed (e : Nat) (ct : Option RawPayload)
    (h : List RawPayload) (s : PState) (ev : PEvent) :
    playbackStep ⟨true, e, ct, h⟩ PEvent.togglePlayPause = ⟨false, e, ct, h⟩ ∧
    playbackStep (playbackStep ⟨false, e, ct, h⟩ PEvent.togglePlayPause)
      PEvent.tick = ⟨true, e + 1, ct, h⟩ ∧
    playbackStep ⟨true, e, ct, h⟩ PEvent.onEnded = ⟨false, 0, ct, h⟩ ∧
    playbackStep ⟨true, e, ct, h⟩ PEvent.onError = ⟨false, 0, ct, h⟩ ∧
    (playbackStep s ev).playbackTime =
      (match ev with
        | PEvent.togglePlayPause => s.playbackTime
        | PEvent.tick =>
            if s.isPlaying then s.playbackTime + 1 else s.playbackTime
        | PEvent.onEnded => 0
        | PEvent.onError => 0) ∧
    (playbackStep s ev).currentTrack = s.currentTrack ∧
    (playbackStep s ev).trackHistory = s.trackHistory := by
  refine ⟨rfl, rfl, rfl, rfl, ?_, ?_, ?_⟩ <;>
    cases ev <;> simp [playbackStep] <;> split <;> rfl

/-- The observable outcome of one attempt to start audio playback:
whether the component considers itself playing before the `play()`
promise settles, whether it does after the promise settles, whether a
failure was logged, and whether a failure escaped to the caller. -/
structure PlayAttempt where
  pendingPlaying : Bool
  settledPlaying : Bool
  loggedError : Bool
  threw : Bool
deriving DecidableEq

/-- The initial autoplay attempt, `startPlayback` in both players
(chiptuneplayer.tsx lines 49-63): `isPlaying` starts false and is set
true only after `await audioRef.current.play()` resolves; on rejection
the error is logged and `isPlaying` is set false; nothing is rethrown.
`playResolves` abstracts whether the runtime accepts the play call. -/
def startPlayback (playResolves : Bool) : PlayAttempt :=
  { pendingPlaying := false
    settledPlaying := playResolves
    loggedError := !playResolves
    threw := false }

/-- A manual play (or resume) via the play/pause button when not
playing, `togglePlayPause` in both players (chiptuneplayer.tsx lines
187-198): `audioRef.current.play().catch(log)` is fired and
`setIsPlaying(true)` runs synchronously, so the component considers
itself playing before the promise settles; a rejection only logs — no
code path ever sets `isPlaying` back to false. -/
def togglePlayFromStopped (playResolves : Bool) : PlayAttempt :=
  { pendingPlaying := true
    settledPlaying := true
    loggedError := !playResolves
    threw := false }

/-- Claim C2, counterexample: a manual play whose underlying `play()`
call rejects still leaves the component in the Playing state — both
before the promise settles and after the rejection — contradicting the
claim that every play attempt is treated as Playing only after a
successful resolve and falls back to Idle on rejection. -/
theorem C2_counterexample :
    (togglePlayFromStopped false).pendingPlaying = true ∧
    (togglePlayFromStopped false).settledPlaying = true ∧
    (togglePlayFromStopped false).loggedError = true ∧
    (togglePlayFromStopped false).threw = false := by
  decide

/-- Claim C2 (amended): only the initial autoplay attempt defers the
Playing state until `play()` resolves and falls back to not-playing on
rejection; the manual play/resume toggle sets Playing synchronously and
keeps it on rejection. In both paths the failure is logged and never
thrown to the caller. -/
theorem C2_amended_play_attempts :
    (∀ r, startPlayback r =
      { pendingPlaying := false, settledPlaying := r,
        loggedError := !r, threw := false }) ∧
    (∀ r, togglePlayFromStopped r =
      { pendingPlaying := true, settledPlaying := true,
        loggedError := !r, threw := false }) := by
  decide

/-- Resolution of an in-flight metadata fetch started by
`fetchAndUpdateTrack` (chiptuneplayer.tsx lines 130-158) after the
effect cleanup (lines 165-170) may already have run: `isUnmounted` is
the cleanup flag, `result` is `some data` for a successful fetch+parse
and `none` for a network/parse failure. The returned Bool records
whether an error was logged. The `isUnmounted` flag is consulted only
in the catch branch (to suppress the log); a successful late response
runs the full state update unconditionally. -/
def lateFetchResolve (isUnmounted : Bool) (st : EngineState)
    (result : Option RawPayload) : EngineState × Bool :=
  match result with
  | some data => (processPayload st data, false)
  | none => (st, !isUnmounted)

/-- Claim C3: a metadata response of a cancelled (unmounted) fetch
handle arriving late is NOT discarded: with the cleanup flag set, a
stale successful response still rewrites `currentTrack`, the last-seen
trackId and the history exactly as a live response would — only the
error log is suppressed. Evaluated at the failing input: state knows
track A-X, stale handle delivers B-Y after unsubscribe. -/
theorem C3_late_response_mutates :
    lateFetchResolve true
      { currentTrack := some ⟨some "A", some "X"⟩
        lastTrack := some "A-X"
        trackHistory := [] }
      (some ⟨some "B", some "Y"⟩)
    = ({ currentTrack := some ⟨some "B", some "Y"⟩
         lastTrack := some "B-Y"
         trackHistory := [⟨some "A", some "X"⟩] }, false) := by
  decide

/-- The subscription-relevant state of the push (SSE) player: whether
the component believes it is playing, and how many live push channels
(EventSource handles) exist. -/
structure ChanState where
  isPlaying : Bool
  handles : Nat
deriving DecidableEq

/-- Subscription events of the push player (vaporplayer.tsx lines
123-176): a play action whose `play()` resolves (the `[isPlaying]`
effect then closes any existing EventSource and opens one), a pause
(the effect/cleanup closes it), and a transport-level error (the
`onerror` handler closes the EventSource and nulls the ref without
touching `isPlaying` — no auto-reconnect). -/
inductive ChanEvent where
  | playOk
  | pauseEv
  | transportError

/-- One subscription event applied to the channel state. -/
def chanStep (s : ChanState) : ChanEvent → ChanState
  | ChanEvent.playOk => { isPlaying := true, handles := 1 }
  | ChanEvent.pauseEv => { isPlaying := false, handles := 0 }
  | ChanEvent.transportError => { s with handles := 0 }

/-- Channel states reachable from the initial state (not playing, no
handle) by any sequence of subscription events. -/
inductive ChanReachable : ChanState → Prop
  | init : ChanReachable { isPlaying := false, handles := 0 }
  | step (s : ChanState) (ev : ChanEvent) :
      ChanReachable s → ChanReachable (chanStep s ev)

/-- Claim C4, counterexample: after a successful play followed by a
transport error the state Playing-with-zero-handles is reachable (the
SSE `onerror` handler discards the handle but leaves `isPlaying`
true), refuting the claimed iff between a live handle and Playing. -/
theorem C4_counterexample :
    ChanReachable { isPlaying := true, handles := 0 } ∧
    ¬ ((ChanState.mk true 0).handles = 1 ↔ (ChanState.mk true 0).isPlaying = true) := by
  constructor
  · have h1 := ChanReachable.init
    have h2 := ChanReachable.step _ ChanEvent.playOk h1
    have h3 := ChanReachable.step _ ChanEvent.transportError h2
    simpa [chanStep] using h3
  · decide

/-- Claim C4 (amended): in every reachable state at most one
subscription handle is live, and a live handle implies Playing; but the
converse fails — after a push-transport error the handle is gone while
the status is still Playing, so Playing with zero handles is reachable
(no auto-reconnect until the next explicit play). -/
theorem C4_amended_handle_invariant (s : ChanState) (h : ChanReachable s) :
    s.handles ≤ 1 ∧ (s.handles = 1 → s.isPlaying = true) := by
  induction h with
  | init => exact ⟨by decide, by decide⟩
  | step s ev _ ih =>
    cases ev <;> simp [chanStep]

/-- Claim C4, witness: the amended invariant evaluated at the reachable
state just after a successful play. -/
theorem C4_witness :
    (ChanState.mk true 1).handles ≤ 1 ∧
    ((ChanState.mk true 1).handles = 1 → (ChanState.mk true 1).isPlaying = true) :=
  C4_amended_handle_invariant (ChanState.mk true 1)
    (ChanReachable.step { isPlaying := false, handles := 0 }
      ChanEvent.playOk ChanReachable.init)

/-- One entry of the upstream icecast aggregate status document
(`status-json.xsl`): the fields the proxy routes read and rewrite. -/
structure IceSource where
  server_name : String
  listenurl : String
deriving DecidableEq

/-- An HTTP response produced by a status proxy route: either `200`
with the selected (rewritten) source object, or `404` with a plain
body. -/
inductive ProxyResponse where
  | ok (source : IceSource)
  | notFound (body : String)
deriving DecidableEq

/-- The status proxy `GET` handler, shared logic of the chip and vapor
routes (src/unnamed/part_002 and index.astro lines 105-117):
`sourceList` models `json.icestats?.source` (`none` when the key is
absent or falsy — note a present-but-empty array is truthy and is
`some []`); `channelName` is the hard-coded `server_name` being looked
up; `publicUrl` the hard-coded rewrite target. When the list exists
but `find` returns `undefined`, the assignment
`vapor.listenurl = ...` throws a TypeError before the `vapor ?? \x7b\x7d`
fallback can apply, so that path is `Except.error`, not a 404. The 404
branch (body `No data found`) is reached only when the source key is
missing entirely. -/
def statusGET (sourceList : Option (List IceSource))
    (channelName publicUrl : String) : Except String ProxyResponse :=
  match sourceList with
  | some sources =>
    match sources.find? (fun s => s.server_name == channelName) with
    | some src =>
        Except.ok (ProxyResponse.ok { src with listenurl := publicUrl })
    | none =>
        Except.error "TypeError: cannot set listenurl of undefined"
  | none => Except.ok (ProxyResponse.notFound "No data found")

/-- Claim C1: evaluated at the failing input — an upstream document
whose source list is present but contains no entry named
`Vaporwave Radio` — the handler throws a TypeError (the request fails)
instead of returning the claimed 404 with a data-free body; the 404
branch is reachable only when the document has no source list at all. -/
theorem C1_no_match_throws :
    statusGET (some [{ server_name := "Other Channel",
                       listenurl := "http://upstream/other" }])
      "Vaporwave Radio" "https://krelez.ruohki.dev/vapor/stream"
      = Except.error "TypeError: cannot set listenurl of undefined" ∧
    statusGET none "Vaporwave Radio" "https://krelez.ruohki.dev/vapor/stream"
      = Except.ok (ProxyResponse.notFound "No data found") :=
  ⟨rfl, rfl⟩

/-- A JS number as read back from localStorage: a finite value or NaN
(floating-point width plays no role for the values involved, so finite
values are represented exactly as rationals). -/
inductive JSNum where
  | num (q : ℚ)
  | nan
deriving DecidableEq

/-- Decimal digits folded into a natural number. -/
def digitsToNat (l : List Char) : Nat :=
  l.foldl (fun acc c => 10 * acc + (c.toNat - 48)) 0

/-- Digit-level part of the `parseFloat` model: the recognized sign,
integer digits, fraction digits and fraction length of the numeric
prefix of the string, or `none` when there is no digit at all. -/
def parseDecimal (s : String) : Option (Bool × Nat × Nat × Nat) :=
  let chars := s.toList
  let signRest : Bool × List Char :=
    match chars with
    | '-' :: r => (true, r)
    | '+' :: r => (false, r)
    | r => (false, r)
  let intPart := signRest.2.takeWhile Char.isDigit
  let afterInt := signRest.2.dropWhile Char.isDigit
  let fracPart :=
    match afterInt with
    | '.' :: r => r.takeWhile Char.isDigit
    | _ => []
  if intPart.isEmpty && fracPart.isEmpty then none
  else some (signRest.1, digitsToNat intPart, digitsToNat fracPart,
    fracPart.length)

/-- Model of the ECMAScript `parseFloat` builtin restricted to plain
decimal notation — optional sign, integer digits, optional fraction
digits, trailing garbage ignored; no exponent, `Infinity` or leading
whitespace handling, which none of the stored-volume strings considered
here use. Returns `none` for NaN (no parsable numeric prefix). -/
def jsParseFloat (s : String) : Option ℚ :=
  (parseDecimal s).map fun r =>
    (cond r.1 (-1) 1 : ℚ) *
      ((r.2.1 : ℚ) + (r.2.2.1 : ℚ) / (10 : ℚ) ^ r.2.2.2)

/-- The stored volume read back at component initialization
(chiptuneplayer.tsx lines 24-30, vaporplayer.tsx lines 22-28):
`savedVolume ? parseFloat(savedVolume) : 0.7` — the default applies
when `localStorage.getItem` returned `null` (absent) or the falsy empty
string; any other string is handed to `parseFloat` unchecked. -/
def readSavedVolume (savedVolume : Option String) : JSNum :=
  match savedVolume with
  | none => JSNum.num (7 / 10)
  | some s =>
    if s == "" then JSNum.num (7 / 10)
    else
      match jsParseFloat s with
      | some q => JSNum.num q
      | none => JSNum.nan

/-- Claim C6, counterexample: an unparseable stored value is read back
as NaN, not as the claimed 0.7 default, and an out-of-range stored
value is read back as-is, not as a float in [0,1]. -/
theorem C6_counterexample :
    readSavedVolume (some "garbage") = JSNum.nan ∧
    readSavedVolume (some "garbage") ≠ JSNum.num (7 / 10) ∧
    readSavedVolume (some "2.5") = JSNum.num (5 / 2) := by
  refine ⟨rfl,
    by rw [show readSavedVolume (some "garbage") = JSNum.nan from rfl]; simp,
    ?_⟩
  rw [show readSavedVolume (some "2.5")
      = JSNum.num ((cond false (-1) 1 : ℚ) *
          ((2 : ℚ) + (5 : ℚ) / (10 : ℚ) ^ (1 : Nat))) from rfl]
  simp only [JSNum.num.injEq]
  norm_num

/-- Claim C6 (amended): the read-back volume defaults to 0.7 exactly
when the stored value is absent or the empty string; any other stored
string is passed to `parseFloat` unchecked — an unparseable value
yields NaN (no 0.7 fallback) and a parseable value is used as-is with
no clamping to [0,1]. -/
theorem C6_amended_volume_readback :
    readSavedVolume none = JSNum.num (7 / 10) ∧
    readSavedVolume (some "") = JSNum.num (7 / 10) ∧
    (∀ s, s ≠ "" → jsParseFloat s = none →
      readSavedVolume (some s) = JSNum.nan) ∧
    (∀ s q, s ≠ "" → jsParseFloat s = some q →
      readSavedVolume (some s) = JSNum.num q) := by
  refine ⟨rfl, rfl, ?_, ?_⟩
  · intro s hs hp
    simp [readSavedVolume, hs, hp]
  · intro s q hs hp
    simp [readSavedVolume, hs, hp]

/-- Claim C6, witness: the amended statement evaluated at concrete
stored values `abc` (unparseable) and `0.4` (parseable). -/
theorem C6_witness :
    readSavedVolume (some "abc") = JSNum.nan ∧
    readSavedVolume (some "0.4") = JSNum.num (2 / 5) :=
  ⟨C6_amended_volume_readback.2.2.1 "abc" (by decide) (by decide),
   C6_amended_volume_readback.2.2.2 "0.4" (2 / 5) (by decide)
     (by rw [show jsParseFloat "0.4"
           = some ((cond false (-1) 1 : ℚ) *
               ((0 : ℚ) + (4 : ℚ) / (10 : ℚ) ^ (1 : Nat))) from rfl]
         norm_num)⟩
